import Mathlib

/-!
Verification development for the hello-page payment/webhook code.

The repository's handlers are Deno edge functions over a hosted table store
(Supabase).  We embed them shallowly: the database becomes an explicit record
of row lists, each handler becomes a pure function from (store, request,
clock, injected database faults) to (HTTP response, store).  The platform's
`crypto.subtle.digest("SHA-512", ...)` is embedded as a full executable
SHA-512 over UTF-8 byte lists, and `Date`/`setUTCMonth`/`toISOString` as an
explicit calendar datatype.
-/

namespace HelloPage

/-! ## SHA-512 (embedding of crypto.subtle.digest as used by sha512Hex) -/

/-- 64-bit mask. -/
def mask64 : Nat := 2 ^ 64 - 1

/-- Addition modulo 2^64. -/
def add64 (a b : Nat) : Nat := (a + b) % 2 ^ 64

/-- Right rotation of a 64-bit word. -/
def rotr64 (x n : Nat) : Nat := ((x >>> n) ||| (x <<< (64 - n))) &&& mask64

/-- Bitwise complement of a 64-bit word. -/
def not64 (x : Nat) : Nat := x ^^^ mask64

def bigSigma0 (x : Nat) : Nat := rotr64 x 28 ^^^ rotr64 x 34 ^^^ rotr64 x 39

def bigSigma1 (x : Nat) : Nat := rotr64 x 14 ^^^ rotr64 x 18 ^^^ rotr64 x 41

def smallSigma0 (x : Nat) : Nat := rotr64 x 1 ^^^ rotr64 x 8 ^^^ (x >>> 7)

def smallSigma1 (x : Nat) : Nat := rotr64 x 19 ^^^ rotr64 x 61 ^^^ (x >>> 6)

def chFn (x y z : Nat) : Nat := (x &&& y) ^^^ (not64 x &&& z)

def majFn (x y z : Nat) : Nat := (x &&& y) ^^^ (x &&& z) ^^^ (y &&& z)

/-- The 80 SHA-512 round constants of FIPS 180-4 (the first 64 bits of the
fractional parts of the cube roots of the first 80 primes), written in
decimal. -/
def sha512K : Array Nat := #[
  4794697086780616226, 8158064640168781261, 13096744586834688815,
  16840607885511220156, 4131703408338449720, 6480981068601479193,
  10538285296894168987, 12329834152419229976, 15566598209576043074,
  1334009975649890238, 2608012711638119052, 6128411473006802146,
  8268148722764581231, 9286055187155687089, 11230858885718282805,
  13951009754708518548, 16472876342353939154, 17275323862435702243,
  1135362057144423861, 2597628984639134821, 3308224258029322869,
  5365058923640841347, 6679025012923562964, 8573033837759648693,
  10970295158949994411, 12119686244451234320, 12683024718118986047,
  13788192230050041572, 14330467153632333762, 15395433587784984357,
  489312712824947311, 1452737877330783856, 2861767655752347644,
  3322285676063803686, 5560940570517711597, 5996557281743188959,
  7280758554555802590, 8532644243296465576, 9350256976987008742,
  10552545826968843579, 11727347734174303076, 12113106623233404929,
  14000437183269869457, 14369950271660146224, 15101387698204529176,
  15463397548674623760, 17586052441742319658, 1182934255886127544,
  1847814050463011016, 2177327727835720531, 2830643537854262169,
  3796741975233480872, 4115178125766777443, 5681478168544905931,
  6601373596472566643, 7507060721942968483, 8399075790359081724,
  8693463985226723168, 9568029438360202098, 10144078919501101548,
  10430055236837252648, 11840083180663258601, 13761210420658862357,
  14299343276471374635, 14566680578165727644, 15097957966210449927,
  16922976911328602910, 17689382322260857208, 500013540394364858,
  748580250866718886, 1242879168328830382, 1977374033974150939,
  2944078676154940804, 3659926193048069267, 4368137639120453308,
  4836135668995329356, 5532061633213252278, 6448918945643986474,
  6902733635092675308, 7801388544844847127]

/-- The SHA-512 initial hash value of FIPS 180-4 (the first 64 bits of the
fractional parts of the square roots of the first 8 primes), in decimal. -/
def sha512H0 : List Nat := [
  7640891576956012808, 13503953896175478587, 4354685564936845355,
  11912009170470909681, 5840696475078001361, 11170449401992604703,
  2270897969802886507, 6620516959819538809]

/-- Encode one Unicode code point as UTF-8 bytes (as TextEncoder does). -/
def utf8Bytes (c : Nat) : List Nat :=
  if c < 0x80 then [c]
  else if c < 0x800 then [0xc0 + c / 64, 0x80 + c % 64]
  else if c < 0x10000 then [0xe0 + c / 4096, 0x80 + c / 64 % 64, 0x80 + c % 64]
  else [0xf0 + c / 262144, 0x80 + c / 4096 % 64, 0x80 + c / 64 % 64, 0x80 + c % 64]

/-- UTF-8 encoding of a string, the byte list `new TextEncoder().encode(s)`. -/
def utf8Encode (s : String) : List Nat :=
  s.data.foldr (fun c acc => utf8Bytes c.toNat ++ acc) []

/-- 16-byte big-endian encoding of the bit length, for the SHA-512 padding tail. -/
def be128 (n : Nat) : List Nat :=
  (List.range 16).map (fun i => n >>> (8 * (15 - i)) &&& 255)

/-- SHA-512 message padding: append 0x80, zero bytes to 112 mod 128, then the
128-bit big-endian bit length. -/
def padMsg (msg : List Nat) : List Nat :=
  msg ++ [0x80] ++ List.replicate ((239 - msg.length % 128) % 128) 0 ++ be128 (8 * msg.length)

/-- Group a byte list into big-endian 64-bit words. -/
def bytesToWords : List Nat → List Nat
  | b0 :: b1 :: b2 :: b3 :: b4 :: b5 :: b6 :: b7 :: rest =>
      (((((((b0 * 256 + b1) * 256 + b2) * 256 + b3) * 256 + b4) * 256 + b5) * 256
        + b6) * 256 + b7) :: bytesToWords rest
  | _ => []

/-- Accumulator pass splitting a word list into 16-word blocks (structural
recursion, so that the kernel can evaluate digests). -/
def toBlocksAux (cur : List Nat) : List Nat → List (List Nat)
  | [] => if cur.isEmpty then [] else [cur.reverse]
  | w :: ws =>
      if cur.length == 15 then (cur.reverse ++ [w]) :: toBlocksAux [] ws
      else toBlocksAux (w :: cur) ws

/-- Split a word list into 16-word blocks. -/
def toBlocks (ws : List Nat) : List (List Nat) := toBlocksAux [] ws

/-- Extend a 16-word block to the 80-word message schedule. -/
def scheduleW (block : List Nat) : Array Nat :=
  (List.range 64).foldl
    (fun w _ =>
      let i := w.size
      w.push (add64 (add64 (smallSigma1 (w.getD (i - 2) 0)) (w.getD (i - 7) 0))
                    (add64 (smallSigma0 (w.getD (i - 15) 0)) (w.getD (i - 16) 0))))
    block.toArray

/-- One SHA-512 compression step over a block. -/
def compressBlock (h : List Nat) (block : List Nat) : List Nat :=
  let w := scheduleW block
  let s0 := (h.getD 0 0, h.getD 1 0, h.getD 2 0, h.getD 3 0,
             h.getD 4 0, h.getD 5 0, h.getD 6 0, h.getD 7 0)
  let r := (List.range 80).foldl
    (fun s t =>
      match s with
      | (a, b, c, d, e, f, g, hh) =>
        let t1 := add64 hh (add64 (bigSigma1 e)
          (add64 (chFn e f g) (add64 (sha512K.getD t 0) (w.getD t 0))))
        let t2 := add64 (bigSigma0 a) (majFn a b c)
        (add64 t1 t2, a, b, c, add64 d t1, e, f, g)) s0
  match r with
  | (a, b, c, d, e, f, g, hh) =>
    [add64 (h.getD 0 0) a, add64 (h.getD 1 0) b, add64 (h.getD 2 0) c,
     add64 (h.getD 3 0) d, add64 (h.getD 4 0) e, add64 (h.getD 5 0) f,
     add64 (h.getD 6 0) g, add64 (h.getD 7 0) hh]

/-- Big-endian bytes of one 64-bit word. -/
def wordToBytes (w : Nat) : List Nat :=
  (List.range 8).map (fun i => w >>> (8 * (7 - i)) &&& 255)

/-- SHA-512 digest (64 bytes) of a byte list. -/
def sha512Bytes (msg : List Nat) : List Nat :=
  (((toBlocks (bytesToWords (padMsg msg))).foldl compressBlock sha512H0).map
    wordToBytes).flatten

/-- Lowercase hex digit. -/
def hexDigitChar (n : Nat) : Char :=
  if n < 10 then Char.ofNat (48 + n) else Char.ofNat (87 + n)

/-- Two-digit lowercase hex of one byte: `b.toString(16).padStart(2, "0")`. -/
def byteToHex (b : Nat) : String :=
  String.mk [hexDigitChar (b / 16 % 16), hexDigitChar (b % 16)]

/-- Embedding of `sha512Hex` from supabase/functions/midtrans-webhook/index.ts:
UTF-8 encode, SHA-512 digest, then the byte-by-byte lowercase hex fold. -/
def sha512Hex (input : String) : String :=
  (sha512Bytes (utf8Encode input)).foldl (fun out b => out ++ byteToHex b) ""

/-! ## UTC calendar model (embedding of Date / setUTCMonth / toISOString) -/

/-- A UTC date-time, the component view a JS `Date` exposes through its
`getUTC*` accessors: zero-based month, one-based day. -/
structure DateTime where
  year : Int
  month : Nat
  day : Nat
  hour : Nat
  minute : Nat
  second : Nat
  millis : Nat
deriving DecidableEq, Repr

/-- Gregorian leap-year rule (for the nonnegative years that occur here). -/
def isLeap (y : Int) : Bool := (y % 4 == 0 && y % 100 != 0) || y % 400 == 0

/-- Days in a zero-based month of a given year. -/
def daysInMonth (y : Int) (m : Nat) : Nat :=
  if m == 1 then (if isLeap y then 29 else 28)
  else if m == 3 || m == 5 || m == 8 || m == 10 then 30
  else 31

/-- JS `d.setUTCMonth(m)`: the month index is floored into year/month, and a
day-of-month beyond the target month's length rolls into the following month
(at most one rollover since day ≤ 31). -/
def setUTCMonth (d : DateTime) (m : Int) : DateTime :=
  let y := d.year + m.fdiv 12
  let m0 := (m.emod 12).toNat
  let dim := daysInMonth y m0
  if d.day > dim then
    { d with year := if m0 == 11 then y + 1 else y,
             month := (m0 + 1) % 12,
             day := d.day - dim }
  else { d with year := y, month := m0 }

/-- Left-pad a numeral with zeros. -/
def padNum (width : Nat) (n : Nat) : String :=
  let s := toString n
  String.mk (List.replicate (width - s.length) '0') ++ s

/-- Year field of `toISOString` (expanded form outside 0000-9999). -/
def isoYear (y : Int) : String :=
  if 0 ≤ y ∧ y ≤ 9999 then padNum 4 y.toNat
  else if y < 0 then "-" ++ padNum 6 (-y).toNat
  else "+" ++ padNum 6 y.toNat

/-- JS `d.toISOString()` on the component view. -/
def toISOString (d : DateTime) : String :=
  isoYear d.year ++ "-" ++ padNum 2 (d.month + 1) ++ "-" ++ padNum 2 d.day ++
    "T" ++ padNum 2 d.hour ++ ":" ++ padNum 2 d.minute ++ ":" ++
    padNum 2 d.second ++ "." ++ padNum 3 d.millis ++ "Z"

/-- Embedding of `addMonthsIso` from midtrans-webhook/index.ts: copy the date,
`setUTCMonth(getUTCMonth() + months)`, then `toISOString()`. -/
def addMonthsIso (date : DateTime) (months : Int) : String :=
  toISOString (setUTCMonth date ((date.month : Int) + months))

/-! ## JS string helpers shared by the handlers -/

/-- The character class of the JS regex backslash-s (also the set `trim`
removes): ASCII whitespace, NBSP, OGHAM space, the U+2000 block, line and
paragraph separators, NNBSP, MMSP, ideographic space and the BOM. -/
def isJsSpace (c : Char) : Bool :=
  let n := c.toNat
  n == 0x9 || n == 0xa || n == 0xb || n == 0xc || n == 0xd || n == 0x20 ||
  n == 0xa0 || n == 0x1680 || (decide (0x2000 ≤ n) && decide (n ≤ 0x200a)) ||
  n == 0x2028 || n == 0x2029 || n == 0x202f || n == 0x205f || n == 0x3000 ||
  n == 0xfeff

/-- JS `s.trim()`: strip leading and trailing JS whitespace. -/
def jsTrim (s : String) : String :=
  String.mk (((s.data.dropWhile isJsSpace).reverse.dropWhile isJsSpace).reverse)

/-- Character-list prefix test. -/
def charsStart : List Char → List Char → Bool
  | _, [] => true
  | [], _ :: _ => false
  | c :: cs, p :: ps => c == p && charsStart cs ps

/-- JS `s.startsWith(p)` (structural, so the kernel can evaluate it). -/
def strStartsWith (s p : String) : Bool := charsStart s.data p.data

/-! ## Store model: the table rows the two handlers read and write -/

/-- A row of `integration_secrets`. -/
structure SecretRow where
  provider : String
  name : String
  ciphertext : String
  iv : String
  updated_at : String
deriving DecidableEq, Repr

/-- A row of `orders`, restricted to the fields the webhook touches. -/
structure OrderRow where
  id : String
  midtrans_order_id : String
  user_id : Option String
  subscription_years : Option Int
  status : String
  payment_env : Option String
  midtrans_transaction_status : Option String
  midtrans_fraud_status : Option String
  midtrans_payment_type : Option String
  midtrans_transaction_id : Option String
deriving DecidableEq, Repr

/-- A row of `user_packages` as inserted by the webhook. -/
structure UserPackageRow where
  user_id : String
  package_id : String
  duration_months : Int
  started_at : String
  activated_at : String
  expires_at : String
  status : String
deriving DecidableEq, Repr

/-- A row of `profiles`, restricted to the fields the webhook touches. -/
structure ProfileRow where
  id : String
  account_status : String
  payment_active : Bool
  updated_at : String
deriving DecidableEq, Repr

/-- The single `domain_pricing_settings` row (selected with `id = true`). -/
structure DomainPricingRow where
  default_package_id : Option String
deriving DecidableEq, Repr

/-- The slice of the hosted database the Midtrans webhook touches. -/
structure Store where
  integration_secrets : List SecretRow
  orders : List OrderRow
  user_packages : List UserPackageRow
  profiles : List ProfileRow
  domain_pricing : Option DomainPricingRow
deriving DecidableEq, Repr

/-! ## Midtrans webhook handler -/

inductive MEnv where
  | sandbox
  | production
deriving DecidableEq, Repr

/-- JSON body of a Midtrans notification; `none` is an absent field. -/
structure WebhookBody where
  order_id : Option String
  status_code : Option String
  gross_amount : Option String
  signature_key : Option String
  transaction_status : Option String
  fraud_status : Option String
  payment_type : Option String
  transaction_id : Option String
deriving DecidableEq, Repr

/-- `String(body?.f ?? "").trim()`. -/
def strField (v : Option String) : String := jsTrim (v.getD "")

/-- `String(body?.f ?? "").trim() || null`: empty coerces to null. -/
def optField (v : Option String) : Option String :=
  let s := strField v
  if s.isEmpty then none else some s

/-- Response bodies the Midtrans webhook can produce. -/
inductive MBody where
  | errMsg (msg : String)
  | okTrue
  | okIgnored
deriving DecidableEq, Repr

/-- An HTTP response of the webhook. -/
structure MResp where
  status : Nat
  body : MBody
deriving DecidableEq, Repr

/-- Embedding of `getPlainServerKey`: `maybeSingle` lookup of the
`integration_secrets` row for provider midtrans and the per-env name; the key
is the ciphertext only when `iv` is the literal `plain`, and a blank key is the
thrown `Missing ...` error. -/
def getPlainServerKey (st : Store) (env : MEnv) : Except String String :=
  let name := match env with
    | .sandbox => "server_key_sandbox"
    | .production => "server_key_production"
  let data := st.integration_secrets.find?
    (fun r => r.provider == "midtrans" && r.name == name)
  let iv := (data.map SecretRow.iv).getD ""
  let key := if iv == "plain" then (data.map SecretRow.ciphertext).getD "" else ""
  if (jsTrim key).isEmpty then .error ("Missing " ++ name) else .ok (jsTrim key)

/-- The call-site `getPlainServerKey(admin, env).catch(() => "")`. -/
def caughtServerKey (st : Store) (env : MEnv) : String :=
  match getPlainServerKey st env with
  | .ok k => k
  | .error _ => ""

/-- Embedding of `verifySignature`: SHA-512 hex of
`order_id ++ status_code ++ gross_amount ++ server_key` against the payload's
`signature_key`. -/
def verifySignature (signature_key order_id status_code gross_amount server_key :
    String) : Bool :=
  sha512Hex (order_id ++ status_code ++ gross_amount ++ server_key) == signature_key

/-- The payload-shape guard: all four signature fields nonempty after trim. -/
def fieldsValid (b : WebhookBody) : Bool :=
  !(strField b.order_id).isEmpty && !(strField b.status_code).isEmpty &&
    !(strField b.gross_amount).isEmpty && !(strField b.signature_key).isEmpty

/-- The handler's `isProd` const: attempt the production key when nonempty. -/
def isProdOf (st : Store) (b : WebhookBody) : Bool :=
  let prodKey := caughtServerKey st .production
  if !prodKey.isEmpty then
    verifySignature (strField b.signature_key) (strField b.order_id)
      (strField b.status_code) (strField b.gross_amount) prodKey
  else false

/-- The handler's `isSandbox` const: only when production failed. -/
def isSandboxOf (st : Store) (b : WebhookBody) : Bool :=
  let sandKey := caughtServerKey st .sandbox
  if !(isProdOf st b) && !sandKey.isEmpty then
    verifySignature (strField b.signature_key) (strField b.order_id)
      (strField b.status_code) (strField b.gross_amount) sandKey
  else false

/-- Signature acceptance: the negation of the 401 guard. -/
def sigAccepted (st : Store) (b : WebhookBody) : Bool :=
  isProdOf st b || isSandboxOf st b

/-- `const env = isProd ? "production" : "sandbox"`. -/
def envOf (st : Store) (b : WebhookBody) : String :=
  if isProdOf st b then "production" else "sandbox"

/-- `maybeSingle` lookup of the order by `midtrans_order_id`. -/
def findOrder (st : Store) (oid : String) : Option OrderRow :=
  st.orders.find? (fun o => o.midtrans_order_id == oid)

/-- `paid`: settlement or capture. -/
def paidOf (ts : Option String) : Bool :=
  ts == some "settlement" || ts == some "capture"

/-- `failed`: deny, cancel or expire. -/
def failedOf (ts : Option String) : Bool :=
  ts == some "deny" || ts == some "cancel" || ts == some "expire"

/-- The `orders` update payload applied to the matched row. -/
def updatedOrderRow (b : WebhookBody) (env : String) (o : OrderRow) : OrderRow :=
  let transaction_status := optField b.transaction_status
  { o with
    payment_env := some env,
    midtrans_transaction_status := transaction_status,
    midtrans_fraud_status := optField b.fraud_status,
    midtrans_payment_type := optField b.payment_type,
    midtrans_transaction_id := optField b.transaction_id,
    status := if paidOf transaction_status then "paid"
      else if failedOf transaction_status then "failed" else "pending" }

/-- `update(...).eq("id", order.id)`: rewrite every row with the matched id. -/
def updateOrdersStep (st : Store) (b : WebhookBody) (o : OrderRow) (env : String) :
    Store :=
  { st with orders :=
      st.orders.map (fun r => if r.id == o.id then updatedOrderRow b env r else r) }

/-- JS truthiness of `order.user_id` (null and the empty string are falsy). -/
def userTruthy : Option String → Bool
  | some u => !u.isEmpty
  | none => false

/-- `Number(order.subscription_years ?? 0)`. -/
def yearsOf (o : OrderRow) : Int := o.subscription_years.getD 0

/-- The activation guard `paid && userId && years > 0`. -/
def activationCond (b : WebhookBody) (o : OrderRow) : Bool :=
  paidOf (optField b.transaction_status) && userTruthy o.user_id &&
    decide (0 < yearsOf o)

/-- `(pricingRow)?.default_package_id ?? null` over the `id = true` row. -/
def joinedPackageId (st : Store) : Option String :=
  match st.domain_pricing with
  | some row => row.default_package_id
  | none => none

/-- JS truthiness of `packageId`. -/
def pkgTruthy : Option String → Bool
  | some s => !s.isEmpty
  | none => false

/-- The `user_packages` row the handler inserts. -/
def newPackageRow (uid pid : String) (years : Int) (now : DateTime) :
    UserPackageRow :=
  { user_id := uid,
    package_id := pid,
    duration_months := years * 12,
    started_at := toISOString now,
    activated_at := toISOString now,
    expires_at := addMonthsIso now (years * 12),
    status := "active" }

/-- Insert the entitlement row. -/
def insertPackageStep (st : Store) (uid pid : String) (years : Int)
    (now : DateTime) : Store :=
  { st with user_packages := st.user_packages ++ [newPackageRow uid pid years now] }

/-- `profiles` update: mark the user active and paid. -/
def profileStep (st : Store) (uid : String) (now : DateTime) : Store :=
  { st with profiles := st.profiles.map (fun p =>
      if p.id == uid then
        { p with account_status := "active", payment_active := true,
                 updated_at := toISOString now }
      else p) }

/-- Order update and subscription activation on the matched order: lines
116-161 of the handler.  `pricingFault` injects a `pricingErr` throw from the
`domain_pricing_settings` select, which the top-level catch turns into a 500
after the orders update has already been applied. -/
def applyOrderEffects (st : Store) (b : WebhookBody) (now : DateTime)
    (o : OrderRow) (env : String) (pricingFault : Option String) :
    MResp × Store :=
  let st1 := updateOrdersStep st b o env
  if activationCond b o then
    match pricingFault with
    | some m => (⟨500, .errMsg m⟩, st1)
    | none =>
      match o.user_id, joinedPackageId st1 with
      | some uid, some pid =>
        if !pid.isEmpty then
          (⟨200, .okTrue⟩,
            profileStep (insertPackageStep st1 uid pid (yearsOf o) now) uid now)
        else (⟨200, .okTrue⟩, st1)
      | _, _ => (⟨200, .okTrue⟩, st1)
  else (⟨200, .okTrue⟩, st1)

/-- Embedding of the `Deno.serve` handler of midtrans-webhook/index.ts.  The
request is the parsed JSON body, `now` is the handler's clock, and
`orderFault`/`pricingFault` inject the two `throw`-on-select database errors;
the surrounding try/catch is inlined as 500 responses carrying the thrown
message. -/
def handleWebhook (st : Store) (b : WebhookBody) (now : DateTime)
    (orderFault : Option String) (pricingFault : Option String) :
    MResp × Store :=
  if !fieldsValid b then
    (⟨400, .errMsg "Invalid payload"⟩, st)
  else if !(sigAccepted st b) then
    (⟨401, .errMsg "Invalid signature"⟩, st)
  else
    match orderFault with
    | some m => (⟨500, .errMsg m⟩, st)
    | none =>
      match findOrder st (strField b.order_id) with
      | none => (⟨200, .okIgnored⟩, st)
      | some order => applyOrderEffects st b now order (envOf st b) pricingFault

/-! ## Spec-side predicates for the claims about the webhook -/

/-- The spec's signature condition for one environment: a stored plaintext
key exists and the lowercase hex SHA-512 digest of
`order_id ++ status_code ++ gross_amount ++ server_key` equals the payload's
`signature_key`. -/
def keyMatchesB (st : Store) (env : MEnv) (b : WebhookBody) : Bool :=
  !(caughtServerKey st env).isEmpty &&
    (sha512Hex (strField b.order_id ++ strField b.status_code ++
        strField b.gross_amount ++ caughtServerKey st env) ==
      strField b.signature_key)

/-- The spec's order-status mapping from `transaction_status`. -/
def claimStatusOf (ts : Option String) : String :=
  if ts = some "settlement" ∨ ts = some "capture" then "paid"
  else if ts = some "deny" ∨ ts = some "cancel" ∨ ts = some "expire" then "failed"
  else "pending"

/-! ## Path lemmas for the webhook handler -/

theorem isProdOf_eq (st : Store) (b : WebhookBody) :
    isProdOf st b = keyMatchesB st .production b := by
  cases h : (caughtServerKey st .production).isEmpty <;>
    simp [isProdOf, keyMatchesB, verifySignature, h]

theorem isSandboxOf_eq (st : Store) (b : WebhookBody) :
    isSandboxOf st b = (!isProdOf st b && keyMatchesB st .sandbox b) := by
  cases hp : isProdOf st b <;>
    cases h : (caughtServerKey st .sandbox).isEmpty <;>
      simp [isSandboxOf, keyMatchesB, verifySignature, hp, h]

theorem sigAccepted_eq (st : Store) (b : WebhookBody) :
    sigAccepted st b = (keyMatchesB st .production b || keyMatchesB st .sandbox b) := by
  rw [sigAccepted, isSandboxOf_eq, isProdOf_eq]
  cases keyMatchesB st .production b <;> simp

theorem handleWebhook_invalid (st : Store) (b : WebhookBody) (now : DateTime)
    (orderFault pricingFault : Option String) (h : fieldsValid b = false) :
    handleWebhook st b now orderFault pricingFault =
      (⟨400, .errMsg "Invalid payload"⟩, st) := by
  simp [handleWebhook, h]

theorem handleWebhook_reject (st : Store) (b : WebhookBody) (now : DateTime)
    (orderFault pricingFault : Option String) (h : fieldsValid b = true)
    (ha : sigAccepted st b = false) :
    handleWebhook st b now orderFault pricingFault =
      (⟨401, .errMsg "Invalid signature"⟩, st) := by
  simp [handleWebhook, h, ha]

theorem handleWebhook_orderFault (st : Store) (b : WebhookBody) (now : DateTime)
    (m : String) (pricingFault : Option String) (h : fieldsValid b = true)
    (ha : sigAccepted st b = true) :
    handleWebhook st b now (some m) pricingFault = (⟨500, .errMsg m⟩, st) := by
  simp [handleWebhook, h, ha]

theorem handleWebhook_ignored (st : Store) (b : WebhookBody) (now : DateTime)
    (pricingFault : Option String) (h : fieldsValid b = true)
    (ha : sigAccepted st b = true)
    (hno : findOrder st (strField b.order_id) = none) :
    handleWebhook st b now none pricingFault = (⟨200, .okIgnored⟩, st) := by
  simp [handleWebhook, h, ha, hno]

theorem handleWebhook_found (st : Store) (b : WebhookBody) (now : DateTime)
    (pricingFault : Option String) (o : OrderRow) (h : fieldsValid b = true)
    (ha : sigAccepted st b = true)
    (ho : findOrder st (strField b.order_id) = some o) :
    handleWebhook st b now none pricingFault =
      applyOrderEffects st b now o (envOf st b) pricingFault := by
  simp [handleWebhook, h, ha, ho]

theorem applyOrderEffects_resp (st : Store) (b : WebhookBody) (now : DateTime)
    (o : OrderRow) (env : String) :
    (applyOrderEffects st b now o env none).1 = ⟨200, .okTrue⟩ := by
  unfold applyOrderEffects
  cases hc : activationCond b o <;> simp [hc]
  cases o.user_id <;> cases joinedPackageId (updateOrdersStep st b o env) <;> simp
  split <;> simp

theorem applyOrderEffects_orders (st : Store) (b : WebhookBody) (now : DateTime)
    (o : OrderRow) (env : String) (pricingFault : Option String) :
    (applyOrderEffects st b now o env pricingFault).2.orders =
      (updateOrdersStep st b o env).orders := by
  unfold applyOrderEffects
  cases hc : activationCond b o <;> cases pricingFault <;> simp [hc]
  · cases o.user_id <;> cases joinedPackageId (updateOrdersStep st b o env) <;> simp
    split <;> simp [profileStep, insertPackageStep]

theorem updateOrders_payment_env (st : Store) (b : WebhookBody) (o : OrderRow)
    (env : String) :
    ∀ r ∈ (updateOrdersStep st b o env).orders,
      r.id = o.id → r.payment_env = some env := by
  intro r hr hid
  simp only [updateOrdersStep, List.mem_map] at hr
  obtain ⟨r0, _, hmap⟩ := hr
  by_cases hcase : r0.id = o.id
  · rw [if_pos (by simpa using hcase)] at hmap
    rw [← hmap]
    simp [updatedOrderRow]
  · rw [if_neg (by simpa using hcase)] at hmap
    exact absurd (hmap ▸ hid) hcase

/-! ## Concrete scenario used by witnesses and counterexamples -/

/-- A stored plaintext production server key. -/
def secretProd : SecretRow :=
  { provider := "midtrans", name := "server_key_production", ciphertext := "k1",
    iv := "plain", updated_at := "" }

/-- The SHA-512 hex digest of the concatenation o1 200 1000 k1, checked below
against the executable digest. -/
def sig1 : String :=
  "27c4eec0d321d0ee6791a084f856bafc1307bfb002444916a4d254ec833f2b7085a4ca6631dff7b8aa15b0ee5be75465db6918a92b950a38af7dca4397163fb2"

/-- A settlement notification whose signature is valid for `secretProd`. -/
def body1 : WebhookBody :=
  { order_id := some "o1", status_code := some "200", gross_amount := some "1000",
    signature_key := some sig1, transaction_status := some "settlement",
    fraud_status := none, payment_type := none, transaction_id := none }

/-- A pending order matched by `body1`. -/
def order1 : OrderRow :=
  { id := "id1", midtrans_order_id := "o1", user_id := some "u1",
    subscription_years := some 1, status := "pending", payment_env := none,
    midtrans_transaction_status := none, midtrans_fraud_status := none,
    midtrans_payment_type := none, midtrans_transaction_id := none }

/-- A store holding the key, the order, the user profile and a default
package. -/
def store1 : Store :=
  { integration_secrets := [secretProd], orders := [order1], user_packages := [],
    profiles := [{ id := "u1", account_status := "pending", payment_active := false,
                   updated_at := "" }],
    domain_pricing := some { default_package_id := some "pkg1" } }

/-- A fixed handler clock. -/
def now1 : DateTime :=
  { year := 2026, month := 0, day := 15, hour := 12, minute := 0, second := 0,
    millis := 0 }

/-! ## C1 -/

/-- C1: with a well-formed payload, the webhook accepts (does not answer 401)
exactly when the lowercase hex SHA-512 digest of
`order_id ++ status_code ++ gross_amount ++ server_key` equals the payload's
`signature_key`, for the stored plaintext production or sandbox key; the
production key is tried first, and only on its failure the sandbox key, as
witnessed by the environment recorded on the matched order. -/
theorem c1_signature_verification (st : Store) (b : WebhookBody) (now : DateTime)
    (o : OrderRow) (h : fieldsValid b = true)
    (ho : findOrder st (strField b.order_id) = some o) :
    ((handleWebhook st b now none none).1.status ≠ 401 ↔
      keyMatchesB st .production b = true ∨ keyMatchesB st .sandbox b = true) ∧
    (keyMatchesB st .production b = true →
      ∀ r ∈ (handleWebhook st b now none none).2.orders,
        r.id = o.id → r.payment_env = some "production") ∧
    (keyMatchesB st .production b = false → keyMatchesB st .sandbox b = true →
      ∀ r ∈ (handleWebhook st b now none none).2.orders,
        r.id = o.id → r.payment_env = some "sandbox") := by
  refine ⟨?_, ?_, ?_⟩
  · cases hacc : sigAccepted st b
    · rw [handleWebhook_reject st b now none none h hacc]
      have hkm := sigAccepted_eq st b
      rw [hacc] at hkm
      simp at hkm
      simp [hkm.1, hkm.2]
    · rw [handleWebhook_found st b now none o h hacc ho]
      have hresp := applyOrderEffects_resp st b now o (envOf st b)
      rw [hresp]
      have hkm := sigAccepted_eq st b
      rw [hacc] at hkm
      simp at hkm ⊢
      exact hkm
  · intro hp
    have hprod : isProdOf st b = true := by rw [isProdOf_eq, hp]
    have hacc : sigAccepted st b = true := by
      rw [sigAccepted_eq, hp]; rfl
    rw [handleWebhook_found st b now none o h hacc ho]
    have henv : envOf st b = "production" := by simp [envOf, hprod]
    rw [applyOrderEffects_orders, henv]
    exact updateOrders_payment_env st b o "production"
  · intro hp hs
    have hprod : isProdOf st b = false := by rw [isProdOf_eq, hp]
    have hacc : sigAccepted st b = true := by
      rw [sigAccepted_eq, hp, hs]; rfl
    rw [handleWebhook_found st b now none o h hacc ho]
    have henv : envOf st b = "sandbox" := by simp [envOf, hprod]
    rw [applyOrderEffects_orders, henv]
    exact updateOrders_payment_env st b o "sandbox"

set_option maxRecDepth 100000 in
/-- C1 witness: the theorem applied to the concrete scenario. -/
theorem c1_signature_verification_witness :
    fieldsValid body1 = true ∧
    (((handleWebhook store1 body1 now1 none none).1.status ≠ 401 ↔
        keyMatchesB store1 .production body1 = true ∨
          keyMatchesB store1 .sandbox body1 = true) ∧
      (keyMatchesB store1 .production body1 = true →
        ∀ r ∈ (handleWebhook store1 body1 now1 none none).2.orders,
          r.id = order1.id → r.payment_env = some "production") ∧
      (keyMatchesB store1 .production body1 = false →
        keyMatchesB store1 .sandbox body1 = true →
        ∀ r ∈ (handleWebhook store1 body1 now1 none none).2.orders,
          r.id = order1.id → r.payment_env = some "sandbox")) :=
  ⟨by decide, c1_signature_verification store1 body1 now1 order1 (by decide)
    (by decide)⟩

/-! ## C2 -/

theorem statusOf_eq_claim (ts : Option String) :
    (if paidOf ts then "paid" else if failedOf ts then "failed" else "pending") =
      claimStatusOf ts := by
  by_cases h1 : ts = some "settlement"
  · simp [claimStatusOf, paidOf, h1]
  by_cases h2 : ts = some "capture"
  · simp [claimStatusOf, paidOf, h2]
  by_cases h3 : ts = some "deny"
  · simp [claimStatusOf, paidOf, failedOf, h1, h2, h3]
  by_cases h4 : ts = some "cancel"
  · simp [claimStatusOf, paidOf, failedOf, h1, h2, h4]
  by_cases h5 : ts = some "expire"
  · simp [claimStatusOf, paidOf, failedOf, h1, h2, h5]
  simp [claimStatusOf, paidOf, failedOf, h1, h2, h3, h4, h5]

/-- C2: on a verified webhook matching a stored order, the matched order row's
status becomes paid exactly for settlement/capture, failed exactly for
deny/cancel/expire, and pending for every other transaction_status; and an
order row with the matched id exists in the result. -/
theorem c2_order_status_mapping (st : Store) (b : WebhookBody) (now : DateTime)
    (o : OrderRow) (h : fieldsValid b = true) (ha : sigAccepted st b = true)
    (ho : findOrder st (strField b.order_id) = some o) :
    (∀ r ∈ (handleWebhook st b now none none).2.orders,
      r.id = o.id → r.status = claimStatusOf (optField b.transaction_status)) ∧
    ∃ r ∈ (handleWebhook st b now none none).2.orders, r.id = o.id := by
  rw [handleWebhook_found st b now none o h ha ho]
  constructor
  · intro r hr hid
    rw [applyOrderEffects_orders] at hr
    simp only [updateOrdersStep, List.mem_map] at hr
    obtain ⟨r0, _, hmap⟩ := hr
    by_cases hcase : r0.id = o.id
    · rw [if_pos (by simpa using hcase)] at hmap
      rw [← hmap]
      simp only [updatedOrderRow]
      exact statusOf_eq_claim (optField b.transaction_status)
    · rw [if_neg (by simpa using hcase)] at hmap
      exact absurd (hmap ▸ hid) hcase
  · have hmem : o ∈ st.orders := List.mem_of_find?_eq_some ho
    refine ⟨updatedOrderRow b (envOf st b) o, ?_, by simp [updatedOrderRow]⟩
    rw [applyOrderEffects_orders]
    simp only [updateOrdersStep, List.mem_map]
    exact ⟨o, hmem, by simp⟩

set_option maxRecDepth 2000000 in
/-- C2 witness: the theorem applied to the concrete scenario, discharging the
signature-acceptance hypothesis by computing the SHA-512 digest. -/
theorem c2_order_status_mapping_witness :
    sigAccepted store1 body1 = true ∧
    ((∀ r ∈ (handleWebhook store1 body1 now1 none none).2.orders,
        r.id = order1.id →
          r.status = claimStatusOf (optField body1.transaction_status)) ∧
      ∃ r ∈ (handleWebhook store1 body1 now1 none none).2.orders,
        r.id = order1.id) :=
  ⟨by decide, c2_order_status_mapping store1 body1 now1 order1 (by decide)
    (by decide) (by decide)⟩

/-! ## C3 and C4: subscription activation -/

theorem isEmpty_false_iff (s : String) : s.isEmpty = false ↔ s ≠ "" := by
  have h1 := String.isEmpty_iff s
  cases hb : s.isEmpty <;> rw [hb] at h1 <;> simp at h1 <;> simp [h1]

theorem userTruthy_iff (u : Option String) :
    userTruthy u = true ↔ ∃ s, u = some s ∧ s ≠ "" := by
  cases u <;> simp [userTruthy, isEmpty_false_iff]

theorem pkgTruthy_iff (u : Option String) :
    pkgTruthy u = true ↔ ∃ s, u = some s ∧ s ≠ "" := by
  cases u <;> simp [pkgTruthy, isEmpty_false_iff]

theorem activationCond_iff (b : WebhookBody) (o : OrderRow) :
    activationCond b o = true ↔
      (paidOf (optField b.transaction_status) = true ∧
        (∃ uid, o.user_id = some uid ∧ uid ≠ "") ∧ 0 < yearsOf o) := by
  simp [activationCond, Bool.and_eq_true, userTruthy_iff, and_assoc]

theorem joinedPackageId_update (st : Store) (b : WebhookBody) (o : OrderRow)
    (env : String) :
    joinedPackageId (updateOrdersStep st b o env) = joinedPackageId st := rfl

theorem applyOrderEffects_act (st : Store) (b : WebhookBody) (now : DateTime)
    (o : OrderRow) (env : String) (uid pid : String)
    (hc : activationCond b o = true) (huid : o.user_id = some uid)
    (hpid : joinedPackageId st = some pid) (hpe : pid ≠ "") :
    applyOrderEffects st b now o env none =
      (⟨200, .okTrue⟩,
        profileStep (insertPackageStep (updateOrdersStep st b o env) uid pid
          (yearsOf o) now) uid now) := by
  have hj : joinedPackageId (updateOrdersStep st b o env) = some pid := hpid
  have hpe' : pid.isEmpty = false := (isEmpty_false_iff pid).2 hpe
  simp only [applyOrderEffects, hc, huid, hj, hpe']
  simp

theorem applyOrderEffects_unchanged (st : Store) (b : WebhookBody)
    (now : DateTime) (o : OrderRow) (env : String)
    (hn : ¬(activationCond b o = true ∧
        pkgTruthy (joinedPackageId st) = true)) :
    (applyOrderEffects st b now o env none).2.user_packages = st.user_packages ∧
    (applyOrderEffects st b now o env none).2.profiles = st.profiles := by
  cases hc : activationCond b o
  · simp [applyOrderEffects, hc, updateOrdersStep]
  · have hp : pkgTruthy (joinedPackageId st) = false := by
      cases hpk : pkgTruthy (joinedPackageId st)
      · rfl
      · exact absurd ⟨hc, hpk⟩ hn
    cases hu : o.user_id with
    | none =>
      simp only [applyOrderEffects, hc, hu]
      simp [updateOrdersStep]
    | some uid =>
      cases hj : joinedPackageId st with
      | none =>
        have hj2 : joinedPackageId (updateOrdersStep st b o env) = none := hj
        simp only [applyOrderEffects, hc, hu, hj2]
        simp [updateOrdersStep]
      | some pid =>
        have hpe : pid.isEmpty = true := by simpa [pkgTruthy, hj] using hp
        have hj2 : joinedPackageId (updateOrdersStep st b o env) = some pid := hj
        simp only [applyOrderEffects, hc, hu, hj2, hpe]
        simp [updateOrdersStep]

/-- An order equal to `order1` except that its user id is the empty string:
non-null, but falsy to the handler's activation guard. -/
def order2 : OrderRow := { order1 with user_id := some "" }

/-- `store1` with `order2` in place of `order1`. -/
def store2 : Store := { store1 with orders := [order2] }

set_option maxRecDepth 2000000 in
/-- C3 counterexample: a verified settlement webhook matching an order whose
user_id is the non-null empty string, with positive subscription years and a
configured default package, inserts no entitlement row and leaves the profile
untouched, contradicting the claim's "non-null user_id" condition: the code
tests JS truthiness, so an empty-string user_id is treated like null. -/
theorem c3_counterexample :
    order2.user_id ≠ none ∧ 0 < yearsOf order2 ∧
    joinedPackageId store2 ≠ none ∧
    claimStatusOf (optField body1.transaction_status) = "paid" ∧
    fieldsValid body1 = true ∧ sigAccepted store2 body1 = true ∧
    findOrder store2 (strField body1.order_id) = some order2 ∧
    (handleWebhook store2 body1 now1 none none).2.user_packages = [] ∧
    (handleWebhook store2 body1 now1 none none).2.profiles = store2.profiles := by
  decide

/-- C3 (amended): on a verified webhook matching a stored order, an
entitlement row (status active, duration subscription_years * 12) is inserted
and the profile marked active/payment_active exactly when the status maps to
paid, the order's user_id is non-null and non-empty, subscription_years is
positive, and the configured default_package_id is non-null and non-empty; in
every other case user_packages and profiles are unchanged. -/
theorem c3_subscription_activation (st : Store) (b : WebhookBody)
    (now : DateTime) (o : OrderRow) (h : fieldsValid b = true)
    (ha : sigAccepted st b = true)
    (ho : findOrder st (strField b.order_id) = some o) :
    (∀ uid pid, paidOf (optField b.transaction_status) = true →
      o.user_id = some uid → uid ≠ "" → 0 < yearsOf o →
      joinedPackageId st = some pid → pid ≠ "" →
      (∃ row, (handleWebhook st b now none none).2.user_packages =
          st.user_packages ++ [row] ∧
        row.user_id = uid ∧ row.package_id = pid ∧
        row.duration_months = yearsOf o * 12 ∧ row.status = "active") ∧
      (handleWebhook st b now none none).2.profiles =
        st.profiles.map (fun p => if p.id == uid then
          { p with account_status := "active", payment_active := true,
                   updated_at := toISOString now } else p)) ∧
    (¬(paidOf (optField b.transaction_status) = true ∧
        (∃ uid, o.user_id = some uid ∧ uid ≠ "") ∧ 0 < yearsOf o ∧
        (∃ pid, joinedPackageId st = some pid ∧ pid ≠ "")) →
      (handleWebhook st b now none none).2.user_packages = st.user_packages ∧
      (handleWebhook st b now none none).2.profiles = st.profiles) := by
  constructor
  · intro uid pid hpaid huid hune hy hpid hpe
    have hc : activationCond b o = true :=
      (activationCond_iff b o).2 ⟨hpaid, ⟨uid, huid, hune⟩, hy⟩
    rw [handleWebhook_found st b now none o h ha ho,
      applyOrderEffects_act st b now o (envOf st b) uid pid hc huid hpid hpe]
    refine ⟨⟨newPackageRow uid pid (yearsOf o) now, ?_, rfl, rfl, rfl, rfl⟩, ?_⟩
    · simp [profileStep, insertPackageStep, updateOrdersStep]
    · simp [profileStep, insertPackageStep, updateOrdersStep]
  · intro hn
    rw [handleWebhook_found st b now none o h ha ho]
    refine applyOrderEffects_unchanged st b now o (envOf st b) ?_
    rintro ⟨hc, hp⟩
    obtain ⟨hpaid, huid, hy⟩ := (activationCond_iff b o).1 hc
    obtain ⟨pid, hpid, hpe⟩ := (pkgTruthy_iff (joinedPackageId st)).1 hp
    exact hn ⟨hpaid, huid, hy, ⟨pid, hpid, hpe⟩⟩

set_option maxRecDepth 2000000 in
/-- C3 witness: the amended theorem applied to the concrete paid scenario. -/
theorem c3_subscription_activation_witness :
    sigAccepted store1 body1 = true ∧
    ((∀ uid pid, paidOf (optField body1.transaction_status) = true →
      order1.user_id = some uid → uid ≠ "" → 0 < yearsOf order1 →
      joinedPackageId store1 = some pid → pid ≠ "" →
      (∃ row, (handleWebhook store1 body1 now1 none none).2.user_packages =
          store1.user_packages ++ [row] ∧
        row.user_id = uid ∧ row.package_id = pid ∧
        row.duration_months = yearsOf order1 * 12 ∧ row.status = "active") ∧
      (handleWebhook store1 body1 now1 none none).2.profiles =
        store1.profiles.map (fun p => if p.id == uid then
          { p with account_status := "active", payment_active := true,
                   updated_at := toISOString now1 } else p)) ∧
    (¬(paidOf (optField body1.transaction_status) = true ∧
        (∃ uid, order1.user_id = some uid ∧ uid ≠ "") ∧ 0 < yearsOf order1 ∧
        (∃ pid, joinedPackageId store1 = some pid ∧ pid ≠ "")) →
      (handleWebhook store1 body1 now1 none none).2.user_packages =
        store1.user_packages ∧
      (handleWebhook store1 body1 now1 none none).2.profiles =
        store1.profiles)) :=
  ⟨by decide, c3_subscription_activation store1 body1 now1 order1 (by decide)
    (by decide) (by decide)⟩

/-- C4: for every activated subscription in the conditions of the activation
path, the inserted row has started_at and activated_at equal to the handler's
current time and expires_at equal to that time advanced by
subscription_years * 12 months through addMonthsIso. -/
theorem c4_subscription_dates (st : Store) (b : WebhookBody) (now : DateTime)
    (o : OrderRow) (uid pid : String) (h : fieldsValid b = true)
    (ha : sigAccepted st b = true)
    (ho : findOrder st (strField b.order_id) = some o)
    (hpaid : paidOf (optField b.transaction_status) = true)
    (huid : o.user_id = some uid) (hune : uid ≠ "") (hy : 0 < yearsOf o)
    (hpid : joinedPackageId st = some pid) (hpe : pid ≠ "") :
    ∃ row, (handleWebhook st b now none none).2.user_packages =
        st.user_packages ++ [row] ∧
      row.started_at = toISOString now ∧ row.activated_at = toISOString now ∧
      row.expires_at = addMonthsIso now (yearsOf o * 12) := by
  have hc : activationCond b o = true :=
    (activationCond_iff b o).2 ⟨hpaid, ⟨uid, huid, hune⟩, hy⟩
  rw [handleWebhook_found st b now none o h ha ho,
    applyOrderEffects_act st b now o (envOf st b) uid pid hc huid hpid hpe]
  refine ⟨newPackageRow uid pid (yearsOf o) now, ?_, rfl, rfl, rfl⟩
  simp [profileStep, insertPackageStep, updateOrdersStep]

set_option maxRecDepth 2000000 in
/-- C4 witness: the theorem applied to the concrete paid scenario. -/
theorem c4_subscription_dates_witness :
    sigAccepted store1 body1 = true ∧
    ∃ row, (handleWebhook store1 body1 now1 none none).2.user_packages =
        store1.user_packages ++ [row] ∧
      row.started_at = toISOString now1 ∧ row.activated_at = toISOString now1 ∧
      row.expires_at = addMonthsIso now1 (yearsOf order1 * 12) :=
  ⟨by decide, c4_subscription_dates store1 body1 now1 order1 "u1" "pkg1"
    (by decide) (by decide) (by decide) (by decide) (by decide) (by decide)
    (by decide) (by decide) (by decide)⟩

/-! ## C5: idempotence of reprocessing the same webhook -/

theorem applyOrderEffects_untouched (st : Store) (b : WebhookBody)
    (now : DateTime) (o : OrderRow) (env : String) (pf : Option String) :
    (applyOrderEffects st b now o env pf).2.integration_secrets =
        st.integration_secrets ∧
      (applyOrderEffects st b now o env pf).2.domain_pricing =
        st.domain_pricing := by
  simp only [applyOrderEffects]
  repeat' first | exact ⟨rfl, rfl⟩ | split

theorem handleWebhook_untouched (st : Store) (b : WebhookBody) (now : DateTime)
    (orderFault pricingFault : Option String) :
    (handleWebhook st b now orderFault pricingFault).2.integration_secrets =
        st.integration_secrets ∧
      (handleWebhook st b now orderFault pricingFault).2.domain_pricing =
        st.domain_pricing := by
  unfold handleWebhook
  split
  · exact ⟨rfl, rfl⟩
  split
  · exact ⟨rfl, rfl⟩
  split
  · exact ⟨rfl, rfl⟩
  split
  · exact ⟨rfl, rfl⟩
  exact applyOrderEffects_untouched _ _ _ _ _ _

theorem caughtServerKey_congr (st st' : Store)
    (h : st'.integration_secrets = st.integration_secrets) (env : MEnv) :
    caughtServerKey st' env = caughtServerKey st env := by
  unfold caughtServerKey getPlainServerKey
  rw [h]

theorem isProdOf_congr (st st' : Store)
    (h : st'.integration_secrets = st.integration_secrets) (b : WebhookBody) :
    isProdOf st' b = isProdOf st b := by
  unfold isProdOf
  rw [caughtServerKey_congr st st' h]

theorem isSandboxOf_congr (st st' : Store)
    (h : st'.integration_secrets = st.integration_secrets) (b : WebhookBody) :
    isSandboxOf st' b = isSandboxOf st b := by
  unfold isSandboxOf
  rw [caughtServerKey_congr st st' h, isProdOf_congr st st' h]

theorem sigAccepted_congr (st st' : Store)
    (h : st'.integration_secrets = st.integration_secrets) (b : WebhookBody) :
    sigAccepted st' b = sigAccepted st b := by
  unfold sigAccepted
  rw [isProdOf_congr st st' h, isSandboxOf_congr st st' h]

theorem envOf_congr (st st' : Store)
    (h : st'.integration_secrets = st.integration_secrets) (b : WebhookBody) :
    envOf st' b = envOf st b := by
  unfold envOf
  rw [isProdOf_congr st st' h]

theorem joinedPackageId_congr (st st' : Store)
    (h : st'.domain_pricing = st.domain_pricing) :
    joinedPackageId st' = joinedPackageId st := by
  unfold joinedPackageId
  rw [h]

theorem find?_orders_map (l : List OrderRow) (b : WebhookBody) (env : String)
    (o : OrderRow) (oid : String) :
    (l.map (fun r => if r.id == o.id then updatedOrderRow b env r else r)).find?
        (fun r => r.midtrans_order_id == oid) =
      Option.map (fun r => if r.id == o.id then updatedOrderRow b env r else r)
        (l.find? (fun r => r.midtrans_order_id == oid)) := by
  rw [List.find?_map]
  have hpf : ((fun r : OrderRow => r.midtrans_order_id == oid) ∘
      (fun r => if r.id == o.id then updatedOrderRow b env r else r)) =
      (fun r : OrderRow => r.midtrans_order_id == oid) := by
    funext r
    by_cases h : r.id = o.id <;> simp [h, updatedOrderRow]
  rw [hpf]

theorem orders_map_idem (l : List OrderRow) (b : WebhookBody) (env : String)
    (o : OrderRow) :
    ((l.map (fun r => if r.id == o.id then updatedOrderRow b env r else r)).map
      (fun r => if r.id == (updatedOrderRow b env o).id then
        updatedOrderRow b env r else r)) =
    l.map (fun r => if r.id == o.id then updatedOrderRow b env r else r) := by
  rw [List.map_map]
  apply List.map_congr_left
  intro r _
  by_cases h : r.id = o.id <;> simp [h, updatedOrderRow]

theorem profiles_map_idem (l : List ProfileRow) (uid : String) (now : DateTime) :
    ((l.map (fun p => if p.id == uid then
        { p with account_status := "active", payment_active := true,
                 updated_at := toISOString now } else p)).map
      (fun p => if p.id == uid then
        { p with account_status := "active", payment_active := true,
                 updated_at := toISOString now } else p)) =
    l.map (fun p => if p.id == uid then
      { p with account_status := "active", payment_active := true,
               updated_at := toISOString now } else p) := by
  rw [List.map_map]
  apply List.map_congr_left
  intro p _
  by_cases h : p.id = uid <;> simp [h]

set_option maxRecDepth 2000000 in
/-- C5 counterexample: reprocessing the same verified paid webhook against the
store produced by the first run yields a different store: the handler inserts
a second, duplicate entitlement row into user_packages on every paid run, so
whole-store idempotence fails. -/
theorem c5_counterexample :
    fieldsValid body1 = true ∧ sigAccepted store1 body1 = true ∧
    findOrder store1 (strField body1.order_id) = some order1 ∧
    (handleWebhook (handleWebhook store1 body1 now1 none none).2 body1 now1
        none none).2 ≠ (handleWebhook store1 body1 now1 none none).2 := by
  decide

/-- C5 (amended): reprocessing the same webhook payload against the store the
first run produced, with the same handler clock, leaves the orders and
profiles tables exactly as after the single run; only user_packages can
differ, by a duplicated entitlement row. -/
theorem c5_order_update_idempotent (st : Store) (b : WebhookBody)
    (now : DateTime) :
    (handleWebhook (handleWebhook st b now none none).2 b now none
        none).2.orders = (handleWebhook st b now none none).2.orders ∧
    (handleWebhook (handleWebhook st b now none none).2 b now none
        none).2.profiles = (handleWebhook st b now none none).2.profiles := by
  cases hv : fieldsValid b with
  | false =>
    have h1 : (handleWebhook st b now none none).2 = st := by
      rw [handleWebhook_invalid st b now none none hv]
    simp [h1, handleWebhook_invalid st b now none none hv]
  | true =>
    cases ha : sigAccepted st b with
    | false =>
      have h1 : (handleWebhook st b now none none).2 = st := by
        rw [handleWebhook_reject st b now none none hv ha]
      simp [h1, handleWebhook_reject st b now none none hv ha]
    | true =>
      cases hfo : findOrder st (strField b.order_id) with
      | none =>
        have h1 : (handleWebhook st b now none none).2 = st := by
          rw [handleWebhook_ignored st b now none hv ha hfo]
        simp [h1, handleWebhook_ignored st b now none hv ha hfo]
      | some o =>
        have h1 : handleWebhook st b now none none =
            applyOrderEffects st b now o (envOf st b) none :=
          handleWebhook_found st b now none o hv ha hfo
        have hsec : (handleWebhook st b now none none).2.integration_secrets =
            st.integration_secrets :=
          (handleWebhook_untouched st b now none none).1
        have hdp : (handleWebhook st b now none none).2.domain_pricing =
            st.domain_pricing :=
          (handleWebhook_untouched st b now none none).2
        have horders1 : (handleWebhook st b now none none).2.orders =
            st.orders.map (fun r => if r.id == o.id then
              updatedOrderRow b (envOf st b) r else r) := by
          rw [h1, applyOrderEffects_orders]
          rfl
        have ha1 : sigAccepted (handleWebhook st b now none none).2 b = true := by
          rw [sigAccepted_congr st _ hsec b]
          exact ha
        have henv1 : envOf (handleWebhook st b now none none).2 b = envOf st b :=
          envOf_congr st _ hsec b
        have hfo1 : findOrder (handleWebhook st b now none none).2
            (strField b.order_id) =
            some (updatedOrderRow b (envOf st b) o) := by
          unfold findOrder
          rw [horders1, find?_orders_map]
          have : st.orders.find?
              (fun r => r.midtrans_order_id == strField b.order_id) = some o :=
            hfo
          rw [this]
          simp
        have hrun2 : handleWebhook (handleWebhook st b now none none).2 b now
            none none =
            applyOrderEffects (handleWebhook st b now none none).2 b now
              (updatedOrderRow b (envOf st b) o) (envOf st b) none := by
          rw [handleWebhook_found _ b now none _ hv ha1 hfo1, henv1]
        constructor
        · rw [hrun2, applyOrderEffects_orders]
          show ((handleWebhook st b now none none).2.orders.map
            (fun r => if r.id == (updatedOrderRow b (envOf st b) o).id then
              updatedOrderRow b (envOf st b) r else r)) = _
          rw [horders1, orders_map_idem, ← horders1]
        · -- profiles: split on whether the activation path runs
          cases hact : activationCond b o with
          | false =>
            have hp1 : (handleWebhook st b now none none).2.profiles =
                st.profiles := by
              rw [h1]
              exact (applyOrderEffects_unchanged st b now o (envOf st b)
                (by simp [hact])).2
            have hact2 : activationCond b (updatedOrderRow b (envOf st b) o) =
                false := hact
            rw [hrun2,
              (applyOrderEffects_unchanged _ b now _ (envOf st b)
                (by simp [hact2])).2, hp1]
          | true =>
            cases hpk : pkgTruthy (joinedPackageId st) with
            | false =>
              have hn : ¬(activationCond b o = true ∧
                  pkgTruthy (joinedPackageId st) = true) := by
                rintro ⟨-, hk⟩
                rw [hpk] at hk
                exact Bool.false_ne_true hk
              have hp1 : (handleWebhook st b now none none).2.profiles =
                  st.profiles := by
                rw [h1]
                exact (applyOrderEffects_unchanged st b now o (envOf st b) hn).2
              have hjq : joinedPackageId (handleWebhook st b now none none).2 =
                  joinedPackageId st := joinedPackageId_congr st _ hdp
              have hact2 : activationCond b (updatedOrderRow b (envOf st b) o) =
                  true := hact
              have hn2 : ¬(activationCond b (updatedOrderRow b (envOf st b) o) =
                  true ∧
                  pkgTruthy (joinedPackageId
                    (handleWebhook st b now none none).2) = true) := by
                rintro ⟨-, hk⟩
                rw [hjq, hpk] at hk
                exact Bool.false_ne_true hk
              rw [hrun2,
                (applyOrderEffects_unchanged _ b now _ (envOf st b) hn2).2, hp1]
            | true =>
              obtain ⟨hpaid, ⟨uid, huid, hune⟩, hy⟩ :=
                (activationCond_iff b o).1 hact
              obtain ⟨pid, hpid, hpe⟩ :=
                (pkgTruthy_iff (joinedPackageId st)).1 hpk
              have hp1 : (handleWebhook st b now none none).2.profiles =
                  st.profiles.map (fun p => if p.id == uid then
                    { p with account_status := "active", payment_active := true,
                             updated_at := toISOString now } else p) := by
                rw [h1, applyOrderEffects_act st b now o (envOf st b) uid pid
                  hact huid hpid hpe]
                simp [profileStep, insertPackageStep, updateOrdersStep]
              have hact2 : activationCond b (updatedOrderRow b (envOf st b) o) =
                  true := hact
              have huid2 : (updatedOrderRow b (envOf st b) o).user_id =
                  some uid := huid
              have hpid2 : joinedPackageId (handleWebhook st b now none none).2 =
                  some pid := by
                rw [joinedPackageId_congr st _ hdp]
                exact hpid
              rw [hrun2, applyOrderEffects_act _ b now _ (envOf st b) uid pid
                hact2 huid2 hpid2 hpe]
              show ((handleWebhook st b now none none).2.profiles.map
                (fun p => if p.id == uid then
                  { p with account_status := "active", payment_active := true,
                           updated_at := toISOString now } else p)) = _
              rw [hp1, profiles_map_idem, ← hp1]

/-! ## C6 and C7: error handling -/

/-- C6: a request with any of the four signature fields missing or empty after
trimming is answered 400 Invalid payload with the store untouched; a
well-formed request matching neither stored key is answered 401 Invalid
signature; an error thrown by the order lookup is caught and answered 500 with
the thrown message and the store untouched; an error thrown by the pricing
lookup on the activation path is caught and answered 500 with the thrown
message, after the order update has been applied. -/
theorem c6_error_handling (st : Store) (b : WebhookBody) (now : DateTime)
    (m : String) (o : OrderRow) (orderFault pricingFault : Option String) :
    ((strField b.order_id = "" ∨ strField b.status_code = "" ∨
        strField b.gross_amount = "" ∨ strField b.signature_key = "") →
      handleWebhook st b now orderFault pricingFault =
        (⟨400, .errMsg "Invalid payload"⟩, st)) ∧
    (fieldsValid b = true →
      keyMatchesB st .production b = false →
      keyMatchesB st .sandbox b = false →
      handleWebhook st b now orderFault pricingFault =
        (⟨401, .errMsg "Invalid signature"⟩, st)) ∧
    (fieldsValid b = true → sigAccepted st b = true →
      handleWebhook st b now (some m) pricingFault = (⟨500, .errMsg m⟩, st)) ∧
    (fieldsValid b = true → sigAccepted st b = true →
      findOrder st (strField b.order_id) = some o →
      activationCond b o = true →
      handleWebhook st b now none (some m) =
        (⟨500, .errMsg m⟩, updateOrdersStep st b o (envOf st b))) := by
  have he : ("" : String).isEmpty = true := by decide
  refine ⟨?_, ?_, ?_, ?_⟩
  · intro hdis
    have hv : fieldsValid b = false := by
      rcases hdis with h | h | h | h <;> simp [fieldsValid, h, he]
    exact handleWebhook_invalid st b now orderFault pricingFault hv
  · intro hv hp hs
    have ha : sigAccepted st b = false := by
      rw [sigAccepted_eq, hp, hs]
      rfl
    exact handleWebhook_reject st b now orderFault pricingFault hv ha
  · intro hv ha
    exact handleWebhook_orderFault st b now m pricingFault hv ha
  · intro hv ha hfo hact
    rw [handleWebhook_found st b now (some m) o hv ha hfo]
    simp [applyOrderEffects, hact]

/-- A notification body with every field absent. -/
def bodyBad : WebhookBody :=
  { order_id := none, status_code := none, gross_amount := none,
    signature_key := none, transaction_status := none, fraud_status := none,
    payment_type := none, transaction_id := none }

/-- C6 witness: the 400 branch of the theorem at a concrete empty body. -/
theorem c6_error_handling_witness :
    strField bodyBad.order_id = "" ∧
    handleWebhook store1 bodyBad now1 none none =
      (⟨400, .errMsg "Invalid payload"⟩, store1) :=
  ⟨by decide,
    (c6_error_handling store1 bodyBad now1 "boom" order1 none none).1
      (Or.inl (by decide))⟩

/-- A store with the production key but no orders at all. -/
def store3 : Store := { store1 with orders := [] }

/-- C7: a verified webhook matching no stored order is acknowledged with
HTTP 200 and the ok/ignored body, and the store is completely unchanged. -/
theorem c7_unknown_order (st : Store) (b : WebhookBody) (now : DateTime)
    (h : fieldsValid b = true) (ha : sigAccepted st b = true)
    (hno : findOrder st (strField b.order_id) = none) :
    handleWebhook st b now none none = (⟨200, .okIgnored⟩, st) :=
  handleWebhook_ignored st b now none h ha hno

set_option maxRecDepth 2000000 in
/-- C7 witness: the theorem applied to a concrete verified webhook against a
store with no matching order. -/
theorem c7_unknown_order_witness :
    sigAccepted store3 body1 = true ∧
    handleWebhook store3 body1 now1 none none = (⟨200, .okIgnored⟩, store3) :=
  ⟨by decide, c7_unknown_order store3 body1 now1 (by decide) (by decide)
    (by decide)⟩

/-! ## The super-admin Xendit-secret edge function (src/unnamed/part_000) -/

/-- JS `s.length`: the UTF-16 code-unit count. -/
def utf16Len (s : String) : Nat :=
  s.data.foldl (fun n c => n + (if c.toNat ≥ 0x10000 then 2 else 1)) 0

/-- A row of `user_roles`. -/
structure RoleRow where
  user_id : String
  role : String
deriving DecidableEq, Repr

/-- The slice of the database the Xendit-secret handler touches. -/
structure XStore where
  integration_secrets : List SecretRow
  user_roles : List RoleRow
deriving DecidableEq, Repr

/-- The parsed JSON body of a request: an action tag and an optional key. -/
structure XReqBody where
  action : String
  api_key : Option String
deriving DecidableEq, Repr

/-- Response bodies of the Xendit-secret handler. -/
inductive XRespBody where
  | errMsg (msg : String)
  | okTrue
  | configured (c : Bool) (updated_at : Option String)
deriving DecidableEq, Repr

/-- An HTTP response of the Xendit-secret handler. -/
structure XResp where
  status : Nat
  body : XRespBody
deriving DecidableEq, Repr

/-- Embedding of `validateXenditSecretKey`: trim, then reject blank keys, keys
with whitespace or out-of-range UTF-16 length, keys not starting with xnd_,
and public keys; otherwise return the trimmed key. -/
def validateXenditSecretKey (input : Option String) : Except String String :=
  let apiKey := jsTrim (input.getD "")
  if apiKey.isEmpty then .error "api_key is required"
  else if apiKey.data.any isJsSpace || decide (utf16Len apiKey < 8) ||
      decide (256 < utf16Len apiKey) then .error "Invalid api_key format"
  else if !(strStartsWith apiKey "xnd_") then
    .error "Invalid Xendit key. Use a key that starts with 'xnd_'"
  else if strStartsWith apiKey "xnd_public_" then
    .error "Invalid Xendit key for server-side usage. Please paste the Xendit *Secret* API Key (xnd_development_... / xnd_production_...), not the public key."
  else .ok apiKey

/-- Embedding of `requireSuperAdmin`: `maybeSingle` lookup of the caller's
user_roles row; anything other than the super_admin role is a 403.  The
select-error branch (a 500 with the database message) is not modeled: the
store lookup itself cannot fail here. -/
def requireSuperAdmin (st : XStore) (userId : String) :
    Except (Nat × String) String :=
  match st.user_roles.find? (fun r => r.user_id == userId) with
  | some r =>
      if r.role == "super_admin" then .ok userId else .error (403, "Forbidden")
  | none => .error (403, "Forbidden")

/-- The `upsert` with `onConflict: provider,name`: overwrite the matching
row's ciphertext/iv when one exists, else append a fresh row. -/
def upsertSecret (st : XStore) (key : String) : XStore :=
  if st.integration_secrets.any
      (fun r => r.provider == "xendit" && r.name == "api_key") then
    { st with integration_secrets := st.integration_secrets.map (fun r =>
        if r.provider == "xendit" && r.name == "api_key" then
          { r with ciphertext := key, iv := "plain" } else r) }
  else
    { st with integration_secrets := st.integration_secrets ++
        [{ provider := "xendit", name := "api_key", ciphertext := key,
           iv := "plain", updated_at := "" }] }

/-- Embedding of the `Deno.serve` handler of the super-admin-xendit-secret
function.  `getClaims` models the external `auth.getClaims` call, returning
the claims' `sub` when the token verifies (`none` for an error or missing
sub); `body` is the result of `req.json()`, whose failure the catch turns
into a 500. -/
def xenditHandler (getClaims : String → Option String) (st : XStore)
    (authHeader : Option String) (body : Except String XReqBody) :
    XResp × XStore :=
  let ah := authHeader.getD ""
  if strStartsWith ah "Bearer " then
    let token := ah.drop 7
    if token.isEmpty then (⟨401, .errMsg "Unauthorized"⟩, st)
    else
      match getClaims token with
      | none => (⟨401, .errMsg "Unauthorized"⟩, st)
      | some sub =>
        if sub.isEmpty then (⟨401, .errMsg "Unauthorized"⟩, st)
        else
          match requireSuperAdmin st sub with
          | .error e => (⟨e.1, .errMsg e.2⟩, st)
          | .ok _ =>
            match body with
            | .error m => (⟨500, .errMsg m⟩, st)
            | .ok pb =>
              if pb.action == "get" then
                let data := st.integration_secrets.find?
                  (fun r => r.provider == "xendit" && r.name == "api_key")
                (⟨200, .configured data.isSome (data.map SecretRow.updated_at)⟩,
                  st)
              else if pb.action == "set" then
                match validateXenditSecretKey pb.api_key with
                | .error msg => (⟨400, .errMsg msg⟩, st)
                | .ok key => (⟨200, .okTrue⟩, upsertSecret st key)
              else if pb.action == "clear" then
                (⟨200, .okTrue⟩,
                  { st with integration_secrets :=
                      st.integration_secrets.filter (fun r =>
                        !(r.provider == "xendit" && r.name == "api_key")) })
              else (⟨400, .errMsg "Unknown action"⟩, st)
  else (⟨401, .errMsg "Unauthorized"⟩, st)

/-- The spec-side acceptance condition of C9 on the trimmed input: non-empty,
no whitespace, UTF-16 length between 8 and 256, starts with xnd_ but not with
xnd_public_. -/
def xenditKeyOkB (s : String) : Bool :=
  !(jsTrim s).isEmpty && !((jsTrim s).data.any isJsSpace) &&
    decide (8 ≤ utf16Len (jsTrim s)) && decide (utf16Len (jsTrim s) ≤ 256) &&
    strStartsWith (jsTrim s) "xnd_" && !(strStartsWith (jsTrim s) "xnd_public_")

/-- Bearer-token resolution succeeds: header present with Bearer scheme, a
non-empty token, and claims resolving to a non-empty sub. -/
def tokenResolves (gc : String → Option String) (ah : Option String) : Bool :=
  strStartsWith (ah.getD "") "Bearer " && !((ah.getD "").drop 7).isEmpty &&
    (match gc ((ah.getD "").drop 7) with
     | some sub => !sub.isEmpty
     | none => false)

/-- The caller's user_roles row is super_admin. -/
def roleIsSuper (st : XStore) (sub : String) : Bool :=
  match st.user_roles.find? (fun r => r.user_id == sub) with
  | some r => r.role == "super_admin"
  | none => false

/-- Full authorization: token resolves and the resolved user is super_admin. -/
def authorizedX (gc : String → Option String) (st : XStore)
    (ah : Option String) : Bool :=
  tokenResolves gc ah &&
    (match gc ((ah.getD "").drop 7) with
     | some sub => roleIsSuper st sub
     | none => false)

theorem upsertSecret_stores (st : XStore) (k : String) :
    ∃ r ∈ (upsertSecret st k).integration_secrets,
      r.provider = "xendit" ∧ r.name = "api_key" ∧ r.ciphertext = k ∧
      r.iv = "plain" := by
  unfold upsertSecret
  cases hx : st.integration_secrets.any
      (fun r => r.provider == "xendit" && r.name == "api_key") with
  | false =>
    simp only [hx, Bool.false_eq_true, if_false]
    refine ⟨_, List.mem_append_right _ (List.mem_singleton_self _),
      rfl, rfl, rfl, rfl⟩
  | true =>
    obtain ⟨r0, hr0, hp⟩ := List.any_eq_true.1 hx
    have hp' : r0.provider = "xendit" ∧ r0.name = "api_key" := by
      simpa using hp
    have hp1 : r0.provider = "xendit" := hp'.1
    have hp2 : r0.name = "api_key" := hp'.2
    simp only [hx, if_true]
    refine ⟨{ r0 with ciphertext := k, iv := "plain" }, ?_, hp1, hp2, rfl, rfl⟩
    simp only [List.mem_map]
    exact ⟨r0, hr0, by simp [hp]⟩

/-- C9: validateXenditSecretKey accepts exactly the inputs that, after
trimming, are non-empty, whitespace-free, of UTF-16 length 8 to 256, start
with xnd_ and not with xnd_public_; on acceptance it returns (and the set
action stores) exactly the trimmed input, and on rejection the error message
is non-empty. -/
theorem c9_validate_xendit_key (s : String) :
    (xenditKeyOkB s = true →
      validateXenditSecretKey (some s) = .ok (jsTrim s)) ∧
    (∀ k, validateXenditSecretKey (some s) = .ok k →
      k = jsTrim s ∧ xenditKeyOkB s = true) ∧
    (∀ m, validateXenditSecretKey (some s) = .error m →
      m ≠ "" ∧ xenditKeyOkB s = false) ∧
    (∀ st : XStore, ∀ k, validateXenditSecretKey (some s) = .ok k →
      ∃ r ∈ (upsertSecret st k).integration_secrets,
        r.provider = "xendit" ∧ r.name = "api_key" ∧
        r.ciphertext = jsTrim s ∧ r.iv = "plain") := by
  by_cases h1 : (jsTrim s).isEmpty = true
  · have hval : validateXenditSecretKey (some s) =
        .error "api_key is required" := by
      simp [validateXenditSecretKey, h1]
    have hok : xenditKeyOkB s = false := by simp [xenditKeyOkB, h1]
    refine ⟨?_, ?_, ?_, ?_⟩ <;> simp [hval, hok]
  · have h1f : (jsTrim s).isEmpty = false := by simpa using h1
    by_cases h2 : ((jsTrim s).data.any isJsSpace ||
        decide (utf16Len (jsTrim s) < 8) ||
        decide (256 < utf16Len (jsTrim s))) = true
    · have hval : validateXenditSecretKey (some s) =
          .error "Invalid api_key format" := by
        simp [validateXenditSecretKey, h1f, h2]
      have hok : xenditKeyOkB s = false := by
        simp only [Bool.or_eq_true] at h2
        rcases h2 with (ha | hb) | hc
        · simp [xenditKeyOkB, ha]
        · have hlt := of_decide_eq_true hb
          have : ¬(8 ≤ utf16Len (jsTrim s)) := by omega
          simp [xenditKeyOkB, this]
        · have hgt := of_decide_eq_true hc
          have : ¬(utf16Len (jsTrim s) ≤ 256) := by omega
          simp [xenditKeyOkB, this]
      refine ⟨?_, ?_, ?_, ?_⟩ <;> simp [hval, hok]
    · have h2f : ((jsTrim s).data.any isJsSpace ||
          decide (utf16Len (jsTrim s) < 8) ||
          decide (256 < utf16Len (jsTrim s))) = false := by simpa using h2
      obtain ⟨⟨hany, hlt⟩, hgt⟩ :
          ((jsTrim s).data.any isJsSpace = false ∧
            decide (utf16Len (jsTrim s) < 8) = false) ∧
          decide (256 < utf16Len (jsTrim s)) = false := by
        simpa [Bool.or_eq_false_iff] using h2f
      have hle8 : 8 ≤ utf16Len (jsTrim s) := by
        have := of_decide_eq_false hlt
        omega
      have hle256 : utf16Len (jsTrim s) ≤ 256 := by
        have := of_decide_eq_false hgt
        omega
      by_cases h3 : strStartsWith (jsTrim s) "xnd_" = true
      · by_cases h4 : strStartsWith (jsTrim s) "xnd_public_" = true
        · have hval : validateXenditSecretKey (some s) =
              .error "Invalid Xendit key for server-side usage. Please paste the Xendit *Secret* API Key (xnd_development_... / xnd_production_...), not the public key." := by
            simp [validateXenditSecretKey, h1f, h2f, h3, h4]
          have hok : xenditKeyOkB s = false := by simp [xenditKeyOkB, h4]
          refine ⟨?_, ?_, ?_, ?_⟩ <;> simp [hval, hok]
        · have h4f : strStartsWith (jsTrim s) "xnd_public_" = false := by
            simpa using h4
          have hval : validateXenditSecretKey (some s) = .ok (jsTrim s) := by
            simp [validateXenditSecretKey, h1f, h2f, h3, h4f]
          have hok : xenditKeyOkB s = true := by
            simp [xenditKeyOkB, h1f, hany, hle8, hle256, h3, h4f]
          refine ⟨fun _ => hval, fun k hk => ?_, fun m hm => ?_,
            fun st k hk => ?_⟩
          · rw [hval] at hk
            injection hk with hkk
            exact ⟨hkk.symm, hok⟩
          · rw [hval] at hm
            exact absurd hm (by simp)
          · rw [hval] at hk
            injection hk with hkk
            exact hkk ▸ upsertSecret_stores st (jsTrim s)
      · have h3f : strStartsWith (jsTrim s) "xnd_" = false := by simpa using h3
        have hval : validateXenditSecretKey (some s) =
            .error "Invalid Xendit key. Use a key that starts with 'xnd_'" := by
          simp [validateXenditSecretKey, h1f, h2f, h3f]
        have hok : xenditKeyOkB s = false := by simp [xenditKeyOkB, h3f]
        refine ⟨?_, ?_, ?_, ?_⟩ <;> simp [hval, hok]

/-- C9 witness: the acceptance direction of the theorem at a concrete valid
key. -/
theorem c9_validate_xendit_key_witness :
    xenditKeyOkB "  xnd_development_abc123  " = true ∧
    validateXenditSecretKey (some "  xnd_development_abc123  ") =
      .ok (jsTrim "  xnd_development_abc123  ") :=
  ⟨by decide, (c9_validate_xendit_key "  xnd_development_abc123  ").1 (by decide)⟩

theorem xenditHandler_unauth (gc : String → Option String) (st : XStore)
    (ah : Option String) (body : Except String XReqBody)
    (h : authorizedX gc st ah = false) :
    xenditHandler gc st ah body =
      (⟨if tokenResolves gc ah then 403 else 401,
        .errMsg (if tokenResolves gc ah then "Forbidden" else "Unauthorized")⟩,
       st) := by
  cases hS : strStartsWith (ah.getD "") "Bearer " with
  | false =>
    have htr : tokenResolves gc ah = false := by simp [tokenResolves, hS]
    simp [xenditHandler, hS, htr]
  | true =>
    cases hT : ((ah.getD "").drop 7).isEmpty with
    | true =>
      have htr : tokenResolves gc ah = false := by simp [tokenResolves, hS, hT]
      simp [xenditHandler, hS, hT, htr]
    | false =>
      cases hG : gc ((ah.getD "").drop 7) with
      | none =>
        have htr : tokenResolves gc ah = false := by
          simp [tokenResolves, hS, hT, hG]
        simp [xenditHandler, hS, hT, hG, htr]
      | some sub =>
        cases hE : sub.isEmpty with
        | true =>
          have htr : tokenResolves gc ah = false := by
            simp [tokenResolves, hS, hT, hG, hE]
          simp [xenditHandler, hS, hT, hG, hE, htr]
        | false =>
          have htr : tokenResolves gc ah = true := by
            simp [tokenResolves, hS, hT, hG, hE]
          cases hr : roleIsSuper st sub with
          | true =>
            exact absurd h (by simp [authorizedX, htr, hG, hr])
          | false =>
            have hrsa : requireSuperAdmin st sub = .error (403, "Forbidden") := by
              unfold requireSuperAdmin
              unfold roleIsSuper at hr
              cases hf : st.user_roles.find? (fun r => r.user_id == sub) with
              | none => simp
              | some r =>
                rw [hf] at hr
                simp at hr
                simp [hr]
            simp [xenditHandler, hS, hT, hG, hE, hrsa, htr]

/-- C10: the Xendit-secret handler never touches the store, and answers 401
(token missing or unresolvable) or 403 (resolved user not super_admin),
whenever the super-admin authorization fails; the store changes only on
authorized requests. -/
theorem c10_super_admin_gate (gc : String → Option String) (st : XStore)
    (ah : Option String) (body : Except String XReqBody) :
    (authorizedX gc st ah = false →
      (xenditHandler gc st ah body).2 = st ∧
      ((xenditHandler gc st ah body).1.status = 401 ∨
        (xenditHandler gc st ah body).1.status = 403)) ∧
    (tokenResolves gc ah = false →
      (xenditHandler gc st ah body).1.status = 401 ∧
      (xenditHandler gc st ah body).2 = st) ∧
    (tokenResolves gc ah = true → authorizedX gc st ah = false →
      (xenditHandler gc st ah body).1.status = 403 ∧
      (xenditHandler gc st ah body).2 = st) ∧
    ((xenditHandler gc st ah body).2 ≠ st → authorizedX gc st ah = true) := by
  refine ⟨?_, ?_, ?_, ?_⟩
  · intro h
    rw [xenditHandler_unauth gc st ah body h]
    cases htr : tokenResolves gc ah <;> simp [htr]
  · intro htr
    have h : authorizedX gc st ah = false := by simp [authorizedX, htr]
    rw [xenditHandler_unauth gc st ah body h]
    simp [htr]
  · intro htr h
    rw [xenditHandler_unauth gc st ah body h]
    simp [htr]
  · intro hne
    cases hax : authorizedX gc st ah with
    | true => rfl
    | false =>
      exact absurd (congrArg Prod.snd (xenditHandler_unauth gc st ah body hax))
        hne

/-- A claims resolver that rejects every token. -/
def gc0 : String → Option String := fun _ => none

/-- An empty store for the Xendit handler. -/
def xstore0 : XStore := { integration_secrets := [], user_roles := [] }

/-- C10 witness: the 401 branch of the theorem at a concrete unauthenticated
request. -/
theorem c10_super_admin_gate_witness :
    tokenResolves gc0 (none : Option String) = false ∧
    (xenditHandler gc0 xstore0 none (.ok ⟨"get", none⟩)).1.status = 401 ∧
    (xenditHandler gc0 xstore0 none (.ok ⟨"get", none⟩)).2 = xstore0 :=
  ⟨by decide,
    (c10_super_admin_gate gc0 xstore0 none (.ok ⟨"get", none⟩)).2.1 (by decide)⟩

/-! ## The useDomainSuggestions hook (src/src/hooks/useDomainSuggestions.ts)

The effect body is embedded as a transition on an explicit hook state: the
`timer` ref, the multiset of scheduled-but-unfired-and-uncleared timeout ids,
the React state triple, the id the platform hands to the next `setTimeout`
(ids start at 1: browser timeout ids are positive), and whether the last
effect run returned a cleanup.  React's contract — the previous run's cleanup
executes before every re-run (query/enabled/debounceMs change) and on
unmount — is the `rerun` transition; `fire` is a scheduled timeout running,
with the fetched outcome supplied by the environment. -/

inductive DomainSuggestionStatus where
  | available
  | unavailable
  | premium
  | unknown
deriving DecidableEq, Repr

structure DomainSuggestionItem where
  domain : String
  status : DomainSuggestionStatus
  price_usd : Option Rat
  currency : Option String
deriving DecidableEq, Repr

/-- The hook's React state triple. -/
structure SuggestState where
  loading : Bool
  error : Option String
  items : List DomainSuggestionItem
deriving DecidableEq, Repr

/-- The embedded hook state. -/
structure HookSt where
  timerRef : Option Nat
  pending : List Nat
  ui : SuggestState
  nextId : Nat
  hasCleanup : Bool
deriving DecidableEq, Repr

/-- Mount state: no timer ref, nothing pending, the initial React state. -/
def initHook : HookSt :=
  { timerRef := none, pending := [], ui := ⟨false, none, []⟩, nextId := 1,
    hasCleanup := false }

/-- `window.clearTimeout(t)`: un-schedule t (no-op on fired or unknown ids). -/
def clearTimeoutAt (st : HookSt) (t : Nat) : HookSt :=
  { st with pending := st.pending.filter (fun x => x != t) }

/-- `if (timer.current) window.clearTimeout(timer.current)` (JS truthiness:
null and 0 skip). -/
def clearStored (st : HookSt) : HookSt :=
  if st.timerRef.getD 0 != 0 then clearTimeoutAt st (st.timerRef.getD 0) else st

/-- One run of the effect body with the current `enabled` and `query`. -/
def effectRun (enabled : Bool) (query : String) (st : HookSt) : HookSt :=
  if !enabled then { st with hasCleanup := false }
  else if (jsTrim query).isEmpty then
    { st with ui := ⟨false, none, []⟩, hasCleanup := false }
  else
    let st1 := clearStored st
    { st1 with pending := st1.pending ++ [st1.nextId],
               timerRef := some st1.nextId,
               nextId := st1.nextId + 1,
               hasCleanup := true }

/-- The registered cleanup, run by React before a re-run and on unmount; a run
that returned no cleanup contributes nothing. -/
def cleanupRun (st : HookSt) : HookSt :=
  if st.hasCleanup then clearStored st else st

inductive HookEv where
  | rerun (enabled : Bool) (query : String) (debounceMs : Nat)
  | fire (t : Nat) (result : SuggestState)

/-- One transition: a dependency-change re-run (cleanup then effect body), or
a pending timeout firing (its callback fetches and writes `result`). -/
def hookStep (st : HookSt) : HookEv → HookSt
  | .rerun enabled query _ => effectRun enabled query (cleanupRun st)
  | .fire t result =>
      if st.pending.contains t then
        { st with pending := st.pending.filter (fun x => x != t), ui := result }
      else st

/-- The hook state after a trace of events from mount. -/
def runHook (evs : List HookEv) : HookSt := evs.foldl hookStep initHook

/-- Reachability invariant: at most one pending timeout, every pending id is
the stored, nonzero ref of a run that registered a cleanup, and ids are
positive. -/
def hookInv (st : HookSt) : Prop :=
  st.pending.length ≤ 1 ∧
  (∀ t ∈ st.pending, st.timerRef = some t ∧ t ≠ 0 ∧ st.hasCleanup = true) ∧
  0 < st.nextId

theorem clearStored_nextId (st : HookSt) : (clearStored st).nextId = st.nextId := by
  unfold clearStored clearTimeoutAt
  split <;> rfl

theorem cleanupRun_nextId (st : HookSt) : (cleanupRun st).nextId = st.nextId := by
  unfold cleanupRun
  split
  · exact clearStored_nextId st
  · rfl

theorem cleanupRun_pending_nil (st : HookSt) (h : hookInv st) :
    (cleanupRun st).pending = [] := by
  obtain ⟨hlen, hall, -⟩ := h
  cases hp : st.pending with
  | nil =>
    unfold cleanupRun clearStored clearTimeoutAt
    split
    · split
      · simp [hp]
      · exact hp
    · exact hp
  | cons t rest =>
    have hone := hall t (by rw [hp]; exact List.mem_cons_self t rest)
    obtain ⟨href, hne, hclean⟩ := hone
    have hrest : rest = [] := by
      rw [hp] at hlen
      cases rest with
      | nil => rfl
      | cons a as =>
        exfalso
        simp [List.length_cons] at hlen
    unfold cleanupRun clearStored clearTimeoutAt
    simp [hclean, href, hne, hp, hrest]

theorem hookStep_inv (st : HookSt) (e : HookEv) (h : hookInv st) :
    hookInv (hookStep st e) := by
  cases e with
  | rerun en q ms =>
    have hcp : (cleanupRun st).pending = [] := cleanupRun_pending_nil st h
    have hcn : 0 < (cleanupRun st).nextId := by
      rw [cleanupRun_nextId]
      exact h.2.2
    show hookInv (effectRun en q (cleanupRun st))
    cases hen : en with
    | false =>
      refine ⟨?_, ?_, ?_⟩ <;> simp [effectRun, hcp]
      exact hcn
    | true =>
      by_cases hq : (jsTrim q).isEmpty = true
      · refine ⟨?_, ?_, ?_⟩ <;> simp [effectRun, hq, hcp]
        exact hcn
      · have hq' : (jsTrim q).isEmpty = false := by simpa using hq
        have hsp : (clearStored (cleanupRun st)).pending = [] := by
          unfold clearStored clearTimeoutAt
          split <;> simp [hcp]
        have hsn : 0 < (clearStored (cleanupRun st)).nextId := by
          rw [clearStored_nextId]
          exact hcn
        have heff : effectRun true q (cleanupRun st) =
            { clearStored (cleanupRun st) with
                pending := (clearStored (cleanupRun st)).pending ++
                  [(clearStored (cleanupRun st)).nextId],
                timerRef := some ((clearStored (cleanupRun st)).nextId),
                nextId := (clearStored (cleanupRun st)).nextId + 1,
                hasCleanup := true } := by
          simp [effectRun, hq']
        rw [heff]
        refine ⟨?_, ?_, ?_⟩
        · simp [hsp]
        · intro t ht
          rw [hsp] at ht
          simp at ht
          subst ht
          exact ⟨rfl, by omega, rfl⟩
        · simp
  | fire t res =>
    show hookInv (if st.pending.contains t then
      { st with pending := st.pending.filter (fun x => x != t), ui := res }
      else st)
    split
    · refine ⟨?_, ?_, ?_⟩
      · exact le_trans (List.length_filter_le _ _) h.1
      · intro x hx
        exact h.2.1 x (List.mem_of_mem_filter hx)
      · exact h.2.2
    · exact h

theorem hookInv_init : hookInv initHook := by
  refine ⟨?_, ?_, ?_⟩ <;> simp [initHook, hookInv]

theorem hookInv_run (evs : List HookEv) : hookInv (runHook evs) := by
  unfold runHook
  have h : ∀ st, hookInv st → hookInv (evs.foldl hookStep st) := by
    induction evs with
    | nil => exact fun st h => h
    | cons e rest ih => exact fun st h => ih _ (hookStep_inv st e h)
  exact h initHook hookInv_init

/-- C8: after any event trace, at most one debounce timeout is pending; the
effect cleanup clears every pending timeout; an enabled re-run whose query is
empty after trimming only resets the state to its initial triple (pending
stays cleared, no timeout is scheduled, the id counter does not move); and an
enabled re-run with a non-blank query ends with exactly the newly scheduled
timeout pending and stored in the ref. -/
theorem c8_debounce_hook (evs : List HookEv) (q : String) (ms : Nat) :
    (runHook evs).pending.length ≤ 1 ∧
    (cleanupRun (runHook evs)).pending = [] ∧
    (jsTrim q = "" →
      hookStep (runHook evs) (.rerun true q ms) =
        { cleanupRun (runHook evs) with
            ui := { loading := false, error := none, items := [] },
            hasCleanup := false }) ∧
    (jsTrim q ≠ "" →
      (hookStep (runHook evs) (.rerun true q ms)).pending =
        [(runHook evs).nextId] ∧
      (hookStep (runHook evs) (.rerun true q ms)).timerRef =
        some ((runHook evs).nextId)) := by
  have hinv := hookInv_run evs
  refine ⟨hinv.1, cleanupRun_pending_nil _ hinv, ?_, ?_⟩
  · intro hq
    have he : (jsTrim q).isEmpty = true := (String.isEmpty_iff (jsTrim q)).2 hq
    simp [hookStep, effectRun, he]
  · intro hq
    have he : (jsTrim q).isEmpty = false := (isEmpty_false_iff (jsTrim q)).2 hq
    have hsp : (clearStored (cleanupRun (runHook evs))).pending = [] := by
      unfold clearStored clearTimeoutAt
      split <;> simp [cleanupRun_pending_nil _ hinv]
    have hsn : (clearStored (cleanupRun (runHook evs))).nextId =
        (runHook evs).nextId := by
      rw [clearStored_nextId, cleanupRun_nextId]
    constructor
    · simp [hookStep, effectRun, he, hsp, hsn]
    · simp [hookStep, effectRun, he, hsn]

/-- C8 witness: the empty-query reset branch at the empty trace. -/
theorem c8_debounce_hook_witness :
    jsTrim "" = "" ∧
    hookStep (runHook []) (.rerun true "" 450) =
      { cleanupRun (runHook []) with
          ui := { loading := false, error := none, items := [] },
          hasCleanup := false } :=
  ⟨by decide, (c8_debounce_hook [] "" 450).2.2.1 (by decide)⟩

end HelloPage

